import Mathlib

/-!
Shallow embedding of the message-delivery core in `zephyr/models.py`:
the data model (users, profiles, streams, recipients, subscriptions,
huddles, messages), the delivery engine `do_send_message` (modelled as an
ordered effect trace so that logging/persistence/notification order is
visible), the subscription ledger, huddle resolution, and the rendering
policy of `Message.to_dict`.

External libraries that the source calls (`hashlib.sha1`,
`django.utils.html.escape`, `bugdown.convert`) are modelled as function
parameters: the properties below hold for every choice of those functions.
Machine state (the relational store) is explicit: a `DB` value holds the
table contents, and Django ORM calls become lookups/updates on it.
Python exceptions become an explicit error type threaded through `Except`.
-/

namespace Zephyr

/-- Error outcomes of the Python code: `KeyError` (raised by
`Recipient.type_name` on an invalid type), `DoesNotExist` (Django
`objects.get` miss), `ValueError('Bad recipient type')` raised by
`do_send_message`, and `IntegrityError` (uniqueness-constraint violation
on insert). -/
inductive PyErr where
  | keyError
  | doesNotExist
  | valueError
  | integrityError
deriving Repr, DecidableEq

/-- `django.contrib.auth.models.User`: the fields the delivery core reads. -/
structure DjangoUser where
  id : Nat
  email : String
  is_active : Bool
deriving Repr, DecidableEq

/-- `Realm`: tenant with a unique domain. -/
structure Realm where
  id : Nat
  domain : String
deriving Repr, DecidableEq

/-- `UserProfile`: a user within a realm. The one-to-one `user` relation is
embedded as a nested value (as `select_related` materialises it). -/
structure UserProfile where
  id : Nat
  user : DjangoUser
  full_name : String
  short_name : String
  realm : Realm
deriving Repr, DecidableEq

/-- `Stream`: a named channel in a realm. -/
structure Stream where
  id : Nat
  name : String
  realm : Realm
deriving Repr, DecidableEq

/-- `Recipient`: canonical addressable target, a (type, type_id) pair. -/
structure Recipient where
  id : Nat
  type_id : Nat
  type : Nat
deriving Repr, DecidableEq

namespace Recipient

/-- `Recipient.PERSONAL = 1` -/
def PERSONAL : Nat := 1
/-- `Recipient.STREAM = 2` -/
def STREAM : Nat := 2
/-- `Recipient.HUDDLE = 3` -/
def HUDDLE : Nat := 3

/-- `Recipient.type_name`: name of the variant; raises `KeyError` on any
other value (`self._type_names[self.type]`). -/
def type_name (r : Recipient) : Except PyErr String :=
  if r.type = PERSONAL then .ok "personal"
  else if r.type = STREAM then .ok "stream"
  else if r.type = HUDDLE then .ok "huddle"
  else .error .keyError

end Recipient

/-- `Client`: named software/API client identity. -/
structure Client where
  name : String
deriving Repr, DecidableEq

/-- `Subscription`: membership edge from a UserProfile to a Recipient with
an `active` flag (default `True`). The foreign key to the profile is
embedded as the full row, as `select_related` materialises it. -/
structure Subscription where
  user_profile : UserProfile
  recipient_id : Nat
  active : Bool
deriving Repr, DecidableEq

/-- `Huddle`: ad-hoc group identified by the hash of its member set. -/
structure Huddle where
  id : Nat
  huddle_hash : String
deriving Repr, DecidableEq

/-- `Message`: one chat message. The `sender`, `recipient` and
`sending_client` foreign keys are embedded as values. -/
structure Message where
  id : Nat
  sender : UserProfile
  recipient : Recipient
  subject : String
  content : String
  pub_date : Nat
  sending_client : Client
deriving Repr, DecidableEq

/-- The relational store: table contents plus auto-increment counters for
the rows `get_huddle` creates. -/
structure DB where
  profiles : List UserProfile
  streams : List Stream
  recipients : List Recipient
  subscriptions : List Subscription
  huddles : List Huddle
  nextHuddleId : Nat
  nextRecipientId : Nat
deriving Repr, DecidableEq

/-- `MAX_MESSAGE_LENGTH = 10000` -/
def MAX_MESSAGE_LENGTH : Nat := 10000

/-- `linebreak`: `string.replace('\n\n', '<p/>').replace('\n', '<br/>')`. -/
def linebreak (string : String) : String :=
  (string.replace "\n\n" "<p/>").replace "\n" "<br/>"

/-- The truncation notice `internal_send_message` appends to over-long
content. -/
def truncation_notice : String := "\n\n[message was too long and has been truncated]"

/-- The content-validation step of `internal_send_message` (its first two
lines): content longer than `MAX_MESSAGE_LENGTH` becomes
`content[0:3900]` plus the truncation notice; anything else is kept
unchanged. The rest of `internal_send_message` passes the result to
`do_send_message` without further modification. -/
def internal_send_message_content (content : String) : String :=
  if content.length > MAX_MESSAGE_LENGTH then
    content.take 3900 ++ truncation_notice
  else content

/-- `get_huddle_hash`: canonicalise the member-id list by de-duplicating
and sorting, join with commas, and hash the resulting string.
`hashlib.sha1(...).hexdigest()` is an external library call, modelled as
the function parameter `sha1`. -/
def get_huddle_hash (sha1 : String → String) (id_list : List Nat) : String :=
  sha1 (",".intercalate (((id_list.dedup).mergeSort (fun a b => a ≤ b)).map toString))

/-- `get_user_profile_by_id`: fetch a `UserProfile` row by primary key
(the in-process `user_hash` lookaside is transparent: it returns the same
row). `none` models Django raising `DoesNotExist`. -/
def get_user_profile_by_id (db : DB) (uid : Nat) : Option UserProfile :=
  db.profiles.find? (fun p => p.id = uid)

/-- One entry of the user list `get_display_recipient` returns for a
personal/huddle recipient. -/
structure UserDict where
  email : String
  full_name : String
  short_name : String
deriving Repr, DecidableEq

/-- Result of `get_display_recipient`: a stream name, or a list of user
dicts. -/
inductive DisplayRecipient where
  | streamName : String → DisplayRecipient
  | userList : List UserDict → DisplayRecipient
deriving Repr, DecidableEq

/-- `get_display_recipient`: for a stream recipient, the stream's name
(raising `DoesNotExist` when the row is gone); otherwise the profiles
subscribed to the recipient (active or not), ordered by user email. -/
def get_display_recipient (db : DB) (recipient : Recipient) :
    Except PyErr DisplayRecipient :=
  if recipient.type = Recipient.STREAM then
    match db.streams.find? (fun s => s.id = recipient.type_id) with
    | some stream => .ok (.streamName stream.name)
    | none => .error .doesNotExist
  else
    let user_profile_list :=
      ((db.subscriptions.filter (fun s => s.recipient_id = recipient.id)).map
          (fun s => s.user_profile)).mergeSort
        (fun a b => a.user.email ≤ b.user.email)
    .ok (.userList (user_profile_list.map
      (fun p => { email := p.user.email, full_name := p.full_name,
                  short_name := p.short_name })))

/-- The serialized message-send audit record built by
`Message.to_log_dict`. -/
structure LogDict where
  id : Nat
  sender_email : String
  sender_full_name : String
  sender_short_name : String
  sending_client : String
  type : String
  recipient : DisplayRecipient
  subject : String
  content : String
  timestamp : Nat
deriving Repr, DecidableEq

/-- `Message.to_log_dict`: full message metadata for the audit log.
`type_name` is evaluated before `get_display_recipient` (keyword-argument
order), so an invalid recipient type raises `KeyError` here. -/
def Message.to_log_dict (m : Message) (db : DB) : Except PyErr LogDict := do
  let tn ← m.recipient.type_name
  let disp ← get_display_recipient db m.recipient
  .ok { id := m.id,
        sender_email := m.sender.user.email,
        sender_full_name := m.sender.full_name,
        sender_short_name := m.sender.short_name,
        sending_client := m.sending_client.name,
        type := tn,
        recipient := disp,
        subject := m.subject,
        content := m.content,
        timestamp := m.pub_date }

/-- Observable side effects of a send, in program order: an append to the
audit event log, a `Message` row insert, a `UserMessage` row insert
(profile id, message id), and the POST to the Tornado push gateway
(message id and the `users` form field). -/
inductive Effect where
  | logEvent : LogDict → Effect
  | saveMessage : Message → Effect
  | saveUserMessage : Nat → Nat → Effect
  | postNotify : Nat → List String → Effect
deriving Repr, DecidableEq

/-- Python's `str.startswith`, as the source uses it on client names. -/
def str_startswith (s pre : String) : Bool := pre.data.isPrefixOf s.data

/-- `log_message`: append the message's log dict to the event log unless
the sending client's name starts with `"test:"`. -/
def log_message (db : DB) (message : Message) : Except PyErr (List Effect) :=
  if ¬ str_startswith message.sending_client.name "test:" then do
    let d ← message.to_log_dict db
    .ok [.logEvent d]
  else
    .ok []

/-- The recipient-resolution step of `do_send_message`: for a personal
message, the de-duplicated pair {target user, sender} (Python
`list(set([...]))`, where Django model equality is by primary key); for a
stream or huddle, every profile with an active subscription to the
recipient; any other type raises `ValueError('Bad recipient type')`. -/
def message_recipients (db : DB) (message : Message) :
    Except PyErr (List UserProfile) :=
  if message.recipient.type = Recipient.PERSONAL then
    match get_user_profile_by_id db message.recipient.type_id,
          get_user_profile_by_id db message.sender.id with
    | some target, some sender =>
        .ok (if target.id = sender.id then [target] else [target, sender])
    | _, _ => .error .doesNotExist
  else if message.recipient.type = Recipient.STREAM ∨
          message.recipient.type = Recipient.HUDDLE then
    .ok ((db.subscriptions.filter
            (fun s => s.recipient_id = message.recipient.id ∧ s.active)).map
          (fun s => s.user_profile))
  else
    .error .valueError

/-- `do_send_message`: log the message (unless `no_log`), resolve the
recipient set, save the `Message` row and one `UserMessage` row per
resolved recipient whose account is active, then (when a Tornado server
is configured) POST the notification with the full resolved recipient id
list. Returns the ordered effect trace and the error that aborted the
send, if any. -/
def do_send_message (db : DB) (message : Message)
    (no_log : Bool) (tornado_server : Bool) : List Effect × Option PyErr :=
  match (if ¬ no_log then log_message db message else .ok []) with
  | .error e => ([], some e)
  | .ok logFx =>
    match message_recipients db message with
    | .error e => (logFx, some e)
    | .ok recipients =>
      let persistFx := logFx ++ [.saveMessage message] ++
        ((recipients.filter (fun p => p.user.is_active)).map
          (fun p => .saveUserMessage p.id message.id))
      if tornado_server then
        (persistFx ++
          [.postNotify message.id (recipients.map (fun p => toString p.id))],
         none)
      else
        (persistFx, none)

/-- The subscription-creation loop of `get_huddle`: one
`Subscription.objects.create(recipient=recipient, user_profile=...)` per
element of the ORIGINAL `id_list` (not de-duplicated). A missing profile
raises `DoesNotExist`; inserting a second row for the same
(user_profile, recipient) pair violates the table's `unique_together`
constraint and raises `IntegrityError`. -/
def create_huddle_subscriptions (db : DB) (recipient : Recipient) :
    List Nat → Except PyErr DB
  | [] => .ok db
  | uid :: rest =>
    match get_user_profile_by_id db uid with
    | none => .error .doesNotExist
    | some profile =>
      if db.subscriptions.any
          (fun s => s.user_profile.id = profile.id ∧
                    s.recipient_id = recipient.id) then
        .error .integrityError
      else
        create_huddle_subscriptions
          { db with subscriptions := db.subscriptions ++
              [{ user_profile := profile, recipient_id := recipient.id,
                 active := true }] }
          recipient rest

/-- `get_huddle`: get-or-create a `Huddle` by its member-set hash; on
creation, also create the huddle's `Recipient` row and then one
`Subscription` per element of `id_list`. Returns the updated store and
the huddle. -/
def get_huddle (sha1 : String → String) (db : DB) (id_list : List Nat) :
    Except PyErr (DB × Huddle) :=
  let huddle_hash := get_huddle_hash sha1 id_list
  match db.huddles.find? (fun h => h.huddle_hash = huddle_hash) with
  | some huddle => .ok (db, huddle)
  | none =>
    let huddle : Huddle := { id := db.nextHuddleId, huddle_hash := huddle_hash }
    let recipient : Recipient :=
      { id := db.nextRecipientId, type_id := huddle.id,
        type := Recipient.HUDDLE }
    let db1 : DB :=
      { db with huddles := db.huddles ++ [huddle],
                recipients := db.recipients ++ [recipient],
                nextHuddleId := db.nextHuddleId + 1,
                nextRecipientId := db.nextRecipientId + 1 }
    match create_huddle_subscriptions db1 recipient id_list with
    | .error e => .error e
    | .ok db2 => .ok (db2, huddle)

/-- A `subscription_added` / `subscription_removed` audit event. -/
structure SubEvent where
  type : String
  user : String
  name : String
  domain : String
deriving Repr, DecidableEq

/-- Set the `active` flag of the first row matching `p` (the row
`maybe_sub[0].save()` writes back), leaving every other row in place. -/
def save_active_flag (value : Bool) (p : Subscription → Bool) :
    List Subscription → List Subscription
  | [] => []
  | s :: rest =>
    if p s then { s with active := value } :: rest
    else s :: save_active_flag value p rest

/-- `do_add_subscription`: get-or-create the (user, recipient) row with
`active=True` as the default; if it existed but was inactive, flip it to
active. Returns the updated store, whether a real state change occurred,
and the audit events emitted. -/
def do_add_subscription (db : DB) (user_profile : UserProfile)
    (stream : Stream) (no_log : Bool) :
    Except PyErr (DB × Bool × List SubEvent) :=
  match db.recipients.find?
      (fun r => r.type_id = stream.id ∧ r.type = Recipient.STREAM) with
  | none => .error .doesNotExist
  | some recipient =>
    let events : List SubEvent :=
      if ¬ no_log then
        [{ type := "subscription_added", user := user_profile.user.email,
           name := stream.name, domain := stream.realm.domain }]
      else []
    match db.subscriptions.find?
        (fun s => s.user_profile.id = user_profile.id ∧
                  s.recipient_id = recipient.id) with
    | none =>
      .ok ({ db with subscriptions := db.subscriptions ++
               [{ user_profile := user_profile,
                  recipient_id := recipient.id, active := true }] },
           true, events)
    | some subscription =>
      if ¬ subscription.active then
        .ok ({ db with subscriptions :=
                 (save_active_flag true
                   (fun s => s.user_profile.id = user_profile.id ∧
                             s.recipient_id = recipient.id)
                   db.subscriptions) },
             true, events)
      else
        .ok (db, false, [])

/-- `do_remove_subscription`: find the (user, recipient) row; if absent,
return `false`; otherwise set `active=False` and return whether it was
previously active. The row is never deleted. -/
def do_remove_subscription (db : DB) (user_profile : UserProfile)
    (stream : Stream) (no_log : Bool) :
    Except PyErr (DB × Bool × List SubEvent) :=
  match db.recipients.find?
      (fun r => r.type_id = stream.id ∧ r.type = Recipient.STREAM) with
  | none => .error .doesNotExist
  | some recipient =>
    let maybe_sub := db.subscriptions.filter
      (fun s => s.user_profile.id = user_profile.id ∧
                s.recipient_id = recipient.id)
    match maybe_sub.head? with
    | none => .ok (db, false, [])
    | some subscription =>
      let did_remove := subscription.active
      let db1 : DB :=
        { db with subscriptions :=
            (save_active_flag false
              (fun s => s.user_profile.id = user_profile.id ∧
                        s.recipient_id = recipient.id)
              db.subscriptions) }
      let events : List SubEvent :=
        if did_remove ∧ ¬ no_log then
          [{ type := "subscription_removed", user := user_profile.user.email,
             name := stream.name, domain := stream.realm.domain }]
        else []
      .ok (db1, did_remove, events)

/-- The rendered-content policy of `Message.to_dict` (its `apply_markdown`
branch) as a function of the data it reads: the message body, the
sender's realm domain, and the sending client's name. The markdown
renderer `bugdown.convert` and the HTML escaper `django.utils.html.escape`
are external components, modelled as the parameters `convert` and `esc`.
Returns the `content` and `content_type` fields of the dict. -/
def to_dict_content (convert esc : String → String)
    (content domain clientName : String) (apply_markdown : Bool) :
    String × String :=
  if apply_markdown then
    if domain ≠ "customer1.invalid" ∨ clientName = "API" ∨ clientName = "github_bot" then
      (convert content, "text/html")
    else
      (linebreak (esc content), "text/html")
  else
    (content, "text/x-markdown")

/-- Profile ids of the `UserMessage` rows in an effect trace: the users
that received a delivery marker. -/
def deliveredUserIds (fx : List Effect) : List Nat :=
  fx.filterMap (fun e => match e with
    | .saveUserMessage uid _ => some uid
    | _ => none)

/-- Whether an effect writes a `Message` or `UserMessage` row. -/
def Effect.isPersistEffect : Effect → Bool
  | .saveMessage _ => true
  | .saveUserMessage _ _ => true
  | _ => false

/-! ### Concrete fixtures

A small populated store used to instantiate the theorems below on
concrete inputs: three users on one realm (the third with a deactivated
account), one stream with its recipient, and subscriptions of all three
users to the stream. -/

/-- Fixture: active user account. -/
def exUserA : DjangoUser := { id := 1, email := "a@example.com", is_active := true }
/-- Fixture: active user account. -/
def exUserB : DjangoUser := { id := 2, email := "b@example.com", is_active := true }
/-- Fixture: deactivated user account. -/
def exUserC : DjangoUser := { id := 3, email := "c@example.com", is_active := false }
/-- Fixture: realm. -/
def exRealm : Realm := { id := 1, domain := "example.com" }
/-- Fixture: profile of the active user A. -/
def exProfileA : UserProfile :=
  { id := 1, user := exUserA, full_name := "A", short_name := "a", realm := exRealm }
/-- Fixture: profile of the active user B. -/
def exProfileB : UserProfile :=
  { id := 2, user := exUserB, full_name := "B", short_name := "b", realm := exRealm }
/-- Fixture: profile of the deactivated user C. -/
def exProfileC : UserProfile :=
  { id := 3, user := exUserC, full_name := "C", short_name := "c", realm := exRealm }
/-- Fixture: stream "general". -/
def exStream : Stream := { id := 1, name := "general", realm := exRealm }
/-- Fixture: the stream's recipient row. -/
def exStreamRecipient : Recipient :=
  { id := 10, type_id := 1, type := Recipient.STREAM }
/-- Fixture: the store with all three users actively subscribed to the
stream. -/
def exDB : DB :=
  { profiles := [exProfileA, exProfileB, exProfileC],
    streams := [exStream],
    recipients := [exStreamRecipient],
    subscriptions :=
      [ { user_profile := exProfileA, recipient_id := 10, active := true },
        { user_profile := exProfileB, recipient_id := 10, active := true },
        { user_profile := exProfileC, recipient_id := 10, active := true } ],
    huddles := [],
    nextHuddleId := 100,
    nextRecipientId := 100 }
/-- Fixture: a message from A to the stream. -/
def exStreamMessage : Message :=
  { id := 1000, sender := exProfileA, recipient := exStreamRecipient,
    subject := "hi", content := "hello", pub_date := 5,
    sending_client := { name := "website" } }
/-- Fixture: a string of 10001 characters. -/
def exLongContent : String := String.mk (List.replicate 10001 'a')
/-- Fixture: B's personal recipient row. -/
def exPersonalRecipientB : Recipient :=
  { id := 11, type_id := 2, type := Recipient.PERSONAL }
/-- Fixture: A's personal recipient row. -/
def exPersonalRecipientA : Recipient :=
  { id := 12, type_id := 1, type := Recipient.PERSONAL }
/-- Fixture: a personal message from A to B. -/
def exPersonalMessage : Message :=
  { id := 1001, sender := exProfileA, recipient := exPersonalRecipientB,
    subject := "", content := "yo", pub_date := 6,
    sending_client := { name := "website" } }
/-- Fixture: a personal message from A to A. -/
def exSelfMessage : Message :=
  { id := 1002, sender := exProfileA, recipient := exPersonalRecipientA,
    subject := "", content := "note", pub_date := 7,
    sending_client := { name := "website" } }
/-- Fixture: a stream message sent by a test client. -/
def exTestClientMessage : Message :=
  { id := 1003, sender := exProfileA, recipient := exStreamRecipient,
    subject := "hi", content := "hello", pub_date := 8,
    sending_client := { name := "test: populate" } }
/-- Fixture: a recipient row with an invalid type value. -/
def exBadTypeRecipient : Recipient := { id := 13, type_id := 1, type := 7 }
/-- Fixture: a message addressed to the invalid-type recipient. -/
def exBadTypeMessage : Message :=
  { id := 1004, sender := exProfileA, recipient := exBadTypeRecipient,
    subject := "x", content := "y", pub_date := 9,
    sending_client := { name := "website" } }

/-- Fixture: the audit record of `exStreamMessage`. -/
def exStreamLogDict : LogDict :=
  { id := 1000, sender_email := "a@example.com", sender_full_name := "A",
    sender_short_name := "a", sending_client := "website", type := "stream",
    recipient := .streamName "general", subject := "hi", content := "hello",
    timestamp := 5 }

/-! ### Helper lemmas -/

/-- Sorting the de-duplicated list is determined by the set of members. -/
lemma sorted_dedup_eq {l1 l2 : List Nat} (h : l1.toFinset = l2.toFinset) :
    l1.dedup.mergeSort (fun a b => a ≤ b)
      = l2.dedup.mergeSort (fun a b => a ≤ b) := by
  have hp : List.Perm l1.dedup l2.dedup := List.toFinset_eq_iff_perm_dedup.mp h
  exact List.eq_of_perm_of_sorted
    ((List.mergeSort_perm _ _).trans (hp.trans (List.mergeSort_perm l2.dedup _).symm))
    (List.sorted_mergeSort' _) (List.sorted_mergeSort' _)

/-- Length of a string prefix. -/
lemma string_length_take (s : String) (n : Nat) :
    (s.take n).length = min n s.length := by
  have h : (s.take n).data = s.data.take n := String.data_take s n
  have h2 : (s.take n).length = (s.take n).data.length := rfl
  rw [h2, h, List.length_take]
  rfl

/-- `to_log_dict` only carries the content; success or failure is
unchanged by it. -/
lemma to_log_dict_content_map (db : DB) (m : Message) (c : String) :
    Message.to_log_dict { m with content := c } db
      = (Message.to_log_dict m db).map (fun d => { d with content := c }) := by
  unfold Message.to_log_dict
  cases h1 : m.recipient.type_name <;>
    cases h2 : get_display_recipient db m.recipient <;>
      simp [h1, h2, Except.map, Except.bind, bind]

/-- Recipient resolution never reads the message content. -/
lemma message_recipients_content_irrel (db : DB) (m : Message) (c : String) :
    message_recipients db { m with content := c } = message_recipients db m := rfl

/-- The error outcome of `do_send_message` does not depend on the message
content: a send is never rejected because of its body. -/
lemma do_send_message_snd_content_irrel (db : DB) (m : Message) (c : String)
    (nl t : Bool) :
    (do_send_message db { m with content := c } nl t).2
      = (do_send_message db m nl t).2 := by
  unfold do_send_message log_message
  rw [message_recipients_content_irrel]
  have hclient : ({ m with content := c } : Message).sending_client
      = m.sending_client := rfl
  rw [hclient, to_log_dict_content_map]
  cases hnl : nl <;>
    cases hts : str_startswith m.sending_client.name "test:" <;>
      cases h1 : Message.to_log_dict m db <;>
        cases h2 : message_recipients db m <;>
          cases t <;>
            simp [hts, h1, h2, Except.map, Except.bind, bind]

/-- `save_active_flag` never adds, removes or re-keys rows. -/
lemma save_active_flag_fields (v : Bool) (p : Subscription → Bool)
    (l : List Subscription) :
    (save_active_flag v p l).map (fun s => (s.user_profile, s.recipient_id))
      = l.map (fun s => (s.user_profile, s.recipient_id)) := by
  induction l with
  | nil => rfl
  | cons a l ih =>
    unfold save_active_flag
    by_cases hpa : p a
    · simp [hpa]
    · simp [hpa, ih]

/-- After deactivating the first matching row, the first matching row is
that row with `active := false` (for predicates that ignore the flag). -/
lemma filter_head_save_active_flag (p : Subscription → Bool)
    (hindep : ∀ (s : Subscription) (v : Bool), p { s with active := v } = p s)
    {l : List Subscription} {s : Subscription}
    (h : (l.filter p).head? = some s) :
    ((save_active_flag false p l).filter p).head?
      = some { s with active := false } := by
  induction l with
  | nil => simp at h
  | cons a l ih =>
    unfold save_active_flag
    by_cases hpa : p a
    · rw [List.filter_cons_of_pos hpa] at h
      simp at h
      subst h
      rw [if_pos hpa, List.filter_cons_of_pos (by rw [hindep]; exact hpa)]
      rfl
    · rw [List.filter_cons_of_neg hpa] at h
      rw [if_neg hpa]
      rw [List.filter_cons_of_neg hpa]
      exact ih h

lemma log_message_ok_shape (db : DB) (m : Message) (fx : List Effect)
    (h : log_message db m = .ok fx) :
    fx = [] ∨ ∃ d, Message.to_log_dict m db = .ok d ∧ fx = [.logEvent d] := by
  unfold log_message at h
  by_cases hts : str_startswith m.sending_client.name "test:"
  · rw [if_neg (by simp [hts])] at h
    injection h with h
    exact Or.inl h.symm
  · rw [if_pos (by simp [hts])] at h
    cases hd : Message.to_log_dict m db with
    | error e => rw [hd] at h; simp [Except.bind, bind] at h
    | ok d =>
      rw [hd] at h
      simp only [Except.bind, bind] at h
      injection h with h
      exact Or.inr ⟨d, rfl, h.symm⟩

lemma do_send_message_ok_shape (db : DB) (msg : Message) (nl t : Bool)
    (fx : List Effect) (h : do_send_message db msg nl t = (fx, none)) :
    ∃ logFx recipients,
      (if ¬nl then log_message db msg else .ok []) = .ok logFx ∧
      message_recipients db msg = .ok recipients ∧
      fx = logFx ++ [.saveMessage msg] ++
        ((recipients.filter (fun p => p.user.is_active)).map
          (fun p => Effect.saveUserMessage p.id msg.id)) ++
        (if t then
          [Effect.postNotify msg.id (recipients.map (fun p => toString p.id))]
         else []) := by
  unfold do_send_message at h
  cases hlog : (if ¬nl then log_message db msg else Except.ok []) with
  | error e =>
    rw [hlog] at h
    simp at h
  | ok logFx =>
    rw [hlog] at h
    cases hrcp : message_recipients db msg with
    | error e =>
      rw [hrcp] at h
      simp at h
    | ok recipients =>
      rw [hrcp] at h
      refine ⟨logFx, recipients, rfl, rfl, ?_⟩
      cases t <;> simp at h ⊢ <;> exact h.symm

lemma message_recipients_stream_huddle (db : DB) (msg : Message)
    (h : msg.recipient.type = Recipient.STREAM ∨
         msg.recipient.type = Recipient.HUDDLE) :
    message_recipients db msg
      = .ok ((db.subscriptions.filter
          (fun s => s.recipient_id = msg.recipient.id ∧ s.active)).map
          (fun s => s.user_profile)) := by
  unfold message_recipients
  rw [if_neg (by rcases h with h1 | h1 <;> rw [h1] <;> decide), if_pos h]

lemma message_recipients_personal (db : DB) (msg : Message)
    (target sender : UserProfile)
    (h : msg.recipient.type = Recipient.PERSONAL)
    (ht : get_user_profile_by_id db msg.recipient.type_id = some target)
    (hs : get_user_profile_by_id db msg.sender.id = some sender) :
    message_recipients db msg
      = .ok (if target.id = sender.id then [target] else [target, sender]) := by
  unfold message_recipients
  rw [if_pos h]
  rw [ht, hs]

lemma deliveredUserIds_saveUserMessages (recipients : List UserProfile)
    (mid : Nat) :
    deliveredUserIds (recipients.map (fun p => Effect.saveUserMessage p.id mid))
      = recipients.map (fun p => p.id) := by
  induction recipients with
  | nil => rfl
  | cons a l ih => simp [deliveredUserIds, List.filterMap_cons] at ih ⊢; exact ih

lemma deliveredUserIds_append (a b : List Effect) :
    deliveredUserIds (a ++ b) = deliveredUserIds a ++ deliveredUserIds b := by
  simp [deliveredUserIds, List.filterMap_append]

lemma log_message_personal_ok (db : DB) (m : Message)
    (h : m.recipient.type = Recipient.PERSONAL) :
    ∃ fx, log_message db m = .ok fx := by
  unfold log_message
  by_cases hts : str_startswith m.sending_client.name "test:"
  · rw [if_neg (by simp [hts])]
    exact ⟨[], rfl⟩
  · rw [if_pos (by simp [hts])]
    unfold Message.to_log_dict Recipient.type_name get_display_recipient
    rw [h]
    exact ⟨_, rfl⟩

lemma get_display_recipient_error (db : DB) (r : Recipient) (e : PyErr)
    (h : get_display_recipient db r = .error e) : e = .doesNotExist := by
  unfold get_display_recipient at h
  split at h
  · split at h
    · exact absurd h (by simp)
    · injection h with h2
      exact h2.symm
  · exact absurd h (by simp)

lemma type_name_ok_valid (r : Recipient)
    (hv : r.type = Recipient.PERSONAL ∨ r.type = Recipient.STREAM ∨
          r.type = Recipient.HUDDLE) :
    ∃ s, r.type_name = .ok s := by
  unfold Recipient.type_name
  rcases hv with h | h | h <;> rw [h] <;> exact ⟨_, rfl⟩

lemma to_log_dict_error_valid (db : DB) (m : Message) (e : PyErr)
    (hv : m.recipient.type = Recipient.PERSONAL ∨
          m.recipient.type = Recipient.STREAM ∨
          m.recipient.type = Recipient.HUDDLE)
    (h : Message.to_log_dict m db = .error e) : e = .doesNotExist := by
  unfold Message.to_log_dict at h
  obtain ⟨s, hs⟩ := type_name_ok_valid m.recipient hv
  rw [hs] at h
  simp only [bind, Except.bind] at h
  cases hd : get_display_recipient db m.recipient with
  | error e2 =>
    rw [hd] at h
    injection h with h2
    rw [← h2]
    exact get_display_recipient_error db m.recipient e2 hd
  | ok dsp =>
    rw [hd] at h
    exact absurd h (by simp)

lemma log_message_error_valid (db : DB) (m : Message) (e : PyErr)
    (hv : m.recipient.type = Recipient.PERSONAL ∨
          m.recipient.type = Recipient.STREAM ∨
          m.recipient.type = Recipient.HUDDLE)
    (h : log_message db m = .error e) : e = .doesNotExist := by
  unfold log_message at h
  by_cases hts : str_startswith m.sending_client.name "test:"
  · rw [if_neg (by simp [hts])] at h
    exact absurd h (by simp)
  · rw [if_pos (by simp [hts])] at h
    cases hd : Message.to_log_dict m db with
    | error e2 =>
      rw [hd] at h
      simp only [bind, Except.bind] at h
      injection h with h2
      rw [← h2]
      exact to_log_dict_error_valid db m e2 hv hd
    | ok d =>
      rw [hd] at h
      simp only [bind, Except.bind] at h
      exact absurd h (by simp)

lemma message_recipients_error_valid (db : DB) (m : Message) (e : PyErr)
    (hv : m.recipient.type = Recipient.PERSONAL ∨
          m.recipient.type = Recipient.STREAM ∨
          m.recipient.type = Recipient.HUDDLE)
    (h : message_recipients db m = .error e) : e = .doesNotExist := by
  unfold message_recipients at h
  rcases hv with h1 | h1 | h1
  · rw [if_pos h1] at h
    cases ht : get_user_profile_by_id db m.recipient.type_id with
    | none =>
      rw [ht] at h
      cases hs : get_user_profile_by_id db m.sender.id <;> rw [hs] at h <;>
        (injection h with h2; exact h2.symm)
    | some target =>
      cases hs : get_user_profile_by_id db m.sender.id with
      | none =>
        rw [ht, hs] at h
        injection h with h2
        exact h2.symm
      | some sender =>
        rw [ht, hs] at h
        exact absurd h (by simp)
  · rw [if_neg (by rw [h1]; decide), if_pos (Or.inl h1)] at h
    exact absurd h (by simp)
  · rw [if_neg (by rw [h1]; decide), if_pos (Or.inr h1)] at h
    exact absurd h (by simp)

/-! ### Claims -/

/-- Claim C4: content longer than the fixed maximum of 10000 units is
persisted truncated — the fixed 3900-character prefix plus the visible
truncation notice, total length exactly `3900 + truncation_notice.length`
and strictly shorter than the original — never at full length, and the
send is not rejected (the error outcome of `do_send_message` is
independent of the content); content of length at most 10000 is persisted
unchanged. -/
theorem oversized_content_truncated_not_rejected (content : String) :
    (content.length > MAX_MESSAGE_LENGTH →
      internal_send_message_content content
          = content.take 3900 ++ truncation_notice ∧
      (internal_send_message_content content).length
          = 3900 + truncation_notice.length ∧
      (internal_send_message_content content).length < content.length) ∧
    (content.length ≤ MAX_MESSAGE_LENGTH →
      internal_send_message_content content = content) ∧
    (∀ (db : DB) (m : Message) (nl t : Bool),
      (do_send_message db { m with content := content } nl t).2
        = (do_send_message db m nl t).2) := by
  refine ⟨fun h => ?_, fun h => ?_,
    fun db m nl t => do_send_message_snd_content_irrel db m content nl t⟩
  · have heq : internal_send_message_content content
        = content.take 3900 ++ truncation_notice := by
      unfold internal_send_message_content
      rw [if_pos h]
    have hlen : (content.take 3900 ++ truncation_notice).length
        = 3900 + truncation_notice.length := by
      rw [String.length_append, string_length_take]
      have : MAX_MESSAGE_LENGTH = 10000 := rfl
      omega
    have hnotice : truncation_notice.length = 47 := rfl
    have hmax : MAX_MESSAGE_LENGTH = 10000 := rfl
    refine ⟨heq, by rw [heq, hlen], ?_⟩
    rw [heq, hlen]
    omega
  · unfold internal_send_message_content
    rw [if_neg (by omega)]

/-- Witness for C4: a 10001-character body is persisted at length
`3900 + truncation_notice.length`, and a short body unchanged. -/
theorem oversized_content_truncated_not_rejected_witness :
    (internal_send_message_content exLongContent).length
        = 3900 + truncation_notice.length ∧
    internal_send_message_content "hello" = "hello" :=
  ⟨((oversized_content_truncated_not_rejected exLongContent).1
      (by unfold exLongContent MAX_MESSAGE_LENGTH
          rw [String.length_mk, List.length_replicate]
          omega)).2.1,
   (oversized_content_truncated_not_rejected "hello").2.1 (by decide)⟩

/-- Claim C9: with markup enabled, a message whose sender's realm is the
plain-text-only realm `customer1.invalid` and whose sending client is not
on the allow-list (`API`, `github_bot`) renders as HTML-escaping followed
by the newline substitution `linebreak`; every other combination renders
through the full markdown converter. Holds for every choice of the
external converter and escaper. -/
theorem to_dict_render_policy (convert esc : String → String)
    (content domain clientName : String) :
    ((domain = "customer1.invalid" ∧ clientName ≠ "API" ∧
        clientName ≠ "github_bot") →
      to_dict_content convert esc content domain clientName true
        = (linebreak (esc content), "text/html")) ∧
    ((domain ≠ "customer1.invalid" ∨ clientName = "API" ∨
        clientName = "github_bot") →
      to_dict_content convert esc content domain clientName true
        = (convert content, "text/html")) := by
  constructor
  · rintro ⟨h1, h2, h3⟩
    simp [to_dict_content, h1, h2, h3]
  · intro h
    unfold to_dict_content
    rw [if_pos rfl, if_pos h]

/-- Witness for C9: the plain-text realm with an untrusted client gets the
escaped rendering; a different realm gets the converter. -/
theorem to_dict_render_policy_witness :
    to_dict_content (fun s => "MD" ++ s) (fun s => "ESC" ++ s)
        "x\ny" "customer1.invalid" "website" true
      = (linebreak ("ESC" ++ "x\ny"), "text/html") ∧
    to_dict_content (fun s => "MD" ++ s) (fun s => "ESC" ++ s)
        "x\ny" "example.com" "website" true
      = ("MD" ++ "x\ny", "text/html") :=
  ⟨(to_dict_render_policy (fun s => "MD" ++ s) (fun s => "ESC" ++ s)
      "x\ny" "customer1.invalid" "website").1 (by decide),
   (to_dict_render_policy (fun s => "MD" ++ s) (fun s => "ESC" ++ s)
      "x\ny" "example.com" "website").2 (by decide)⟩

/-- Claim C3: `get_huddle_hash` is a pure function of the member set —
two id lists denoting the same set (any order, any duplicates) hash
identically, for every choice of the external hash function; consequently
once a huddle with that hash exists, `get_huddle` resolves both lists to
the same huddle without touching the store. -/
theorem get_huddle_hash_depends_only_on_member_set (sha1 : String → String)
    (l1 l2 : List Nat) (h : l1.toFinset = l2.toFinset) :
    get_huddle_hash sha1 l1 = get_huddle_hash sha1 l2 ∧
    ∀ db : DB,
      (∃ hd ∈ db.huddles, hd.huddle_hash = get_huddle_hash sha1 l1) →
      get_huddle sha1 db l1 = get_huddle sha1 db l2 := by
  have hkey : get_huddle_hash sha1 l1 = get_huddle_hash sha1 l2 := by
    unfold get_huddle_hash
    rw [sorted_dedup_eq h]
  refine ⟨hkey, fun db hex => ?_⟩
  obtain ⟨hd, hmem, hhash⟩ := hex
  have hsome : (db.huddles.find?
      (fun h' => h'.huddle_hash = get_huddle_hash sha1 l1)).isSome := by
    rw [List.find?_isSome]
    exact ⟨hd, hmem, by simp [hhash]⟩
  unfold get_huddle
  rw [← hkey]
  match hf : db.huddles.find?
      (fun h' => h'.huddle_hash = get_huddle_hash sha1 l1) with
  | some hd' => simp [hf]
  | none => rw [hf] at hsome; simp at hsome

/-- Witness for C3: `[3,1,2]`, `[1,2,3]` and `[1,1,2,3]` all hash to the
same value. -/
theorem get_huddle_hash_depends_only_on_member_set_witness :
    get_huddle_hash (fun s => s) [3, 1, 2] = get_huddle_hash (fun s => s) [1, 2, 3] ∧
    get_huddle_hash (fun s => s) [1, 2, 3] = get_huddle_hash (fun s => s) [1, 1, 2, 3] :=
  ⟨(get_huddle_hash_depends_only_on_member_set (fun s => s) [3, 1, 2] [1, 2, 3]
      (by decide)).1,
   (get_huddle_hash_depends_only_on_member_set (fun s => s) [1, 2, 3] [1, 1, 2, 3]
      (by decide)).1⟩

/-- Claim C6: `do_add_subscription` returns true exactly on a real state
change — first-ever subscribe (no row) or reactivation of an inactive
row — and false when the row is already active; `do_remove_subscription`
returns false when no row exists, otherwise flips the first matching row
to inactive and returns its previous `active` value, so a second remove
in a row returns false, and no call ever deletes a `Subscription` row
(the (user, recipient) rows are preserved). -/
theorem subscription_add_remove_state_change (db : DB) (up : UserProfile)
    (stream : Stream) (r : Recipient)
    (hrec : db.recipients.find?
      (fun x => x.type_id = stream.id ∧ x.type = Recipient.STREAM) = some r) :
    (db.subscriptions.find?
        (fun s => s.user_profile.id = up.id ∧ s.recipient_id = r.id) = none →
      (do_add_subscription db up stream false).toOption.map (fun x => x.2.1)
        = some true) ∧
    (∀ s0, db.subscriptions.find?
        (fun s => s.user_profile.id = up.id ∧ s.recipient_id = r.id) = some s0 →
      (s0.active = false →
        (do_add_subscription db up stream false).toOption.map (fun x => x.2.1)
          = some true) ∧
      (s0.active = true →
        do_add_subscription db up stream false = .ok (db, false, []))) ∧
    (db.subscriptions.filter
        (fun s => s.user_profile.id = up.id ∧ s.recipient_id = r.id) = [] →
      do_remove_subscription db up stream false = .ok (db, false, [])) ∧
    (∀ s0, (db.subscriptions.filter
        (fun s => s.user_profile.id = up.id ∧ s.recipient_id = r.id)).head?
          = some s0 →
      ∃ ev, do_remove_subscription db up stream false
        = .ok ({ db with subscriptions :=
            (save_active_flag false
              (fun s => s.user_profile.id = up.id ∧ s.recipient_id = r.id)
              db.subscriptions) }, s0.active, ev)) ∧
    (∀ db1 b ev, do_remove_subscription db up stream false = .ok (db1, b, ev) →
      db1.subscriptions.map (fun s => (s.user_profile, s.recipient_id))
        = db.subscriptions.map (fun s => (s.user_profile, s.recipient_id)) ∧
      ∀ db2 b2 ev2,
        do_remove_subscription db1 up stream false = .ok (db2, b2, ev2) →
        b2 = false) := by
  refine ⟨?_, ?_, ?_, ?_, ?_⟩
  · intro hfind
    simp only [do_add_subscription, hrec, hfind]
    rfl
  · intro s0 hfind
    constructor
    · intro hact
      simp only [do_add_subscription, hrec, hfind]
      rw [if_pos (by rw [hact]; simp)]
      rfl
    · intro hact
      simp only [do_add_subscription, hrec, hfind]
      rw [if_neg (by simp [hact])]
  · intro hfilter
    simp only [do_remove_subscription, hrec, hfilter, List.head?_nil]
  · intro s0 hhead
    simp only [do_remove_subscription, hrec, hhead]
    exact ⟨_, rfl⟩
  · intro db1 b ev hok
    cases hh : (db.subscriptions.filter
        (fun s => s.user_profile.id = up.id ∧ s.recipient_id = r.id)).head? with
    | none =>
      simp only [do_remove_subscription, hrec, hh] at hok
      rw [Except.ok.injEq, Prod.mk.injEq, Prod.mk.injEq] at hok
      obtain ⟨h1, h2, h3⟩ := hok
      subst h1
      subst h2
      refine ⟨rfl, ?_⟩
      intro db2 b2 ev2 hok2
      simp only [do_remove_subscription, hrec, hh] at hok2
      rw [Except.ok.injEq, Prod.mk.injEq, Prod.mk.injEq] at hok2
      exact hok2.2.1.symm
    | some s0 =>
      simp only [do_remove_subscription, hrec, hh] at hok
      rw [Except.ok.injEq, Prod.mk.injEq, Prod.mk.injEq] at hok
      obtain ⟨h1, h2, h3⟩ := hok
      subst h1
      subst h2
      refine ⟨save_active_flag_fields false _ db.subscriptions, ?_⟩
      intro db2 b2 ev2 hok2
      have hh2 : (((save_active_flag false
          (fun s => s.user_profile.id = up.id ∧ s.recipient_id = r.id)
          db.subscriptions)).filter
          (fun s => s.user_profile.id = up.id ∧ s.recipient_id = r.id)).head?
          = some { s0 with active := false } :=
        filter_head_save_active_flag
          (fun s => s.user_profile.id = up.id ∧ s.recipient_id = r.id)
          (fun s v => rfl) hh
      simp only [do_remove_subscription, hrec, hh2] at hok2
      rw [Except.ok.injEq, Prod.mk.injEq, Prod.mk.injEq] at hok2
      exact hok2.2.1.symm

/-- Witness for C6: adding A's already-active subscription to the fixture
stream changes nothing and returns false; removing it returns true. -/
theorem subscription_add_remove_state_change_witness :
    do_add_subscription exDB exProfileA exStream false = .ok (exDB, false, []) ∧
    (do_remove_subscription exDB exProfileA exStream false).toOption.map
      (fun x => x.2.1) = some true := by
  have h := subscription_add_remove_state_change exDB exProfileA exStream
    exStreamRecipient rfl
  refine ⟨(h.2.1 ⟨exProfileA, 10, true⟩ rfl).2 rfl, ?_⟩
  obtain ⟨ev, hev⟩ := h.2.2.2.1 ⟨exProfileA, 10, true⟩ rfl
  rw [hev]
  rfl

/-- Claim C1: for a message to a Stream or Huddle recipient, a successful
`do_send_message` writes a `UserMessage` row for exactly those users that
hold an active `Subscription` to the recipient and whose underlying user
account is active: deactivated-account subscribers are resolved into the
recipient set but receive no delivery marker. -/
theorem stream_fanout_active_only (db : DB) (msg : Message) (nl t : Bool)
    (hty : msg.recipient.type = Recipient.STREAM ∨
           msg.recipient.type = Recipient.HUDDLE)
    (hok : (do_send_message db msg nl t).2 = none) :
    deliveredUserIds (do_send_message db msg nl t).1
      = (((db.subscriptions.filter
            (fun s => s.recipient_id = msg.recipient.id ∧ s.active)).map
            (fun s => s.user_profile)).filter
          (fun p => p.user.is_active)).map (fun p => p.id) := by
  have hpair : do_send_message db msg nl t
      = ((do_send_message db msg nl t).1, none) := by
    rw [← hok]
  obtain ⟨logFx, recipients, hlog, hrcp, hfx⟩ :=
    do_send_message_ok_shape db msg nl t _ hpair
  have hrec_eq : recipients
      = (db.subscriptions.filter
          (fun s => s.recipient_id = msg.recipient.id ∧ s.active)).map
          (fun s => s.user_profile) := by
    have := (message_recipients_stream_huddle db msg hty).symm.trans hrcp
    injection this with h
    exact h.symm
  have hlogD : deliveredUserIds logFx = [] := by
    cases hnl : nl
    · rw [hnl, if_pos (by simp)] at hlog
      rcases log_message_ok_shape db msg logFx hlog with h | ⟨d, _, h⟩ <;>
        subst h <;> rfl
    · rw [hnl, if_neg (by simp)] at hlog
      injection hlog with h
      subst h
      rfl
  rw [hfx, hrec_eq, deliveredUserIds_append, deliveredUserIds_append,
    deliveredUserIds_append, hlogD, deliveredUserIds_saveUserMessages]
  cases t <;> simp [deliveredUserIds]

/-- Claim C2: for a Personal message whose target and sender profiles both
resolve and have active accounts, the send succeeds and writes exactly one
`UserMessage` row when sender and target coincide (the recipient set is
de-duplicated, so a self-send never double-inserts) and exactly two rows —
the target's and the sender's — otherwise. -/
theorem personal_fanout_dedup (db : DB) (msg : Message)
    (target sender : UserProfile) (nl t : Bool)
    (hty : msg.recipient.type = Recipient.PERSONAL)
    (ht : get_user_profile_by_id db msg.recipient.type_id = some target)
    (hs : get_user_profile_by_id db msg.sender.id = some sender)
    (hta : target.user.is_active = true)
    (hsa : sender.user.is_active = true) :
    (do_send_message db msg nl t).2 = none ∧
    deliveredUserIds (do_send_message db msg nl t).1
      = (if target.id = sender.id then [target.id] else [target.id, sender.id]) ∧
    (deliveredUserIds (do_send_message db msg nl t).1).length
      = (if target.id = sender.id then 1 else 2) := by
  have hrcp := message_recipients_personal db msg target sender hty ht hs
  have hsnd : (do_send_message db msg nl t).2 = none := by
    unfold do_send_message
    cases hnl : nl
    · obtain ⟨fxl, hfxl⟩ := log_message_personal_ok db msg hty
      rw [if_pos (by simp), hfxl, hrcp]
      cases t <;> rfl
    · rw [if_neg (by simp), hrcp]
      cases t <;> rfl
  have hpair : do_send_message db msg nl t
      = ((do_send_message db msg nl t).1, none) := by
    rw [← hsnd]
  obtain ⟨logFx, recipients, hlog, hrcp2, hfx⟩ :=
    do_send_message_ok_shape db msg nl t _ hpair
  have hrec_eq : recipients
      = (if target.id = sender.id then [target] else [target, sender]) := by
    have := hrcp.symm.trans hrcp2
    injection this with h
    exact h.symm
  have hlogD : deliveredUserIds logFx = [] := by
    cases hnl : nl
    · rw [hnl, if_pos (by simp)] at hlog
      rcases log_message_ok_shape db msg logFx hlog with h | ⟨d, _, h⟩ <;>
        subst h <;> rfl
    · rw [hnl, if_neg (by simp)] at hlog
      injection hlog with h
      subst h
      rfl
  have hdel : deliveredUserIds (do_send_message db msg nl t).1
      = (if target.id = sender.id then [target.id] else [target.id, sender.id]) := by
    rw [hfx, hrec_eq, deliveredUserIds_append, deliveredUserIds_append,
      deliveredUserIds_append, hlogD]
    by_cases hid : target.id = sender.id <;> cases t <;>
      simp [hid, hta, hsa, deliveredUserIds]
  refine ⟨hsnd, hdel, ?_⟩
  rw [hdel]
  by_cases hid : target.id = sender.id <;> simp [hid]

/-- Claim C7: on a send with logging enabled, whenever any `Message` or
`UserMessage` persistence effect occurs, the serialized audit record of
the message (its `to_log_dict`: sender, recipient description, subject,
content, timestamp, client) is the very first effect of the trace — hence
appended before persistence; when the sending client's name marks a test
client (prefix `"test:"`), no message-send event is appended at all. -/
theorem audit_log_before_persistence (db : DB) (msg : Message) (t : Bool) :
    (str_startswith msg.sending_client.name "test:" = false →
      ∀ e ∈ (do_send_message db msg false t).1, e.isPersistEffect = true →
        ∃ d, ((do_send_message db msg false t).1).head? = some (.logEvent d) ∧
             Message.to_log_dict msg db = .ok d) ∧
    (str_startswith msg.sending_client.name "test:" = true →
      ∀ d, Effect.logEvent d ∉ (do_send_message db msg false t).1) := by
  constructor
  · intro hts e he hpe
    cases hlm : log_message db msg with
    | error e0 =>
      have htr : (do_send_message db msg false t).1 = [] := by
        unfold do_send_message
        rw [if_pos (by simp), hlm]
      rw [htr] at he
      simp at he
    | ok logFx =>
      have hshape : ∃ d, Message.to_log_dict msg db = .ok d ∧
          logFx = [.logEvent d] := by
        unfold log_message at hlm
        rw [if_pos (by simp [hts])] at hlm
        cases hd : Message.to_log_dict msg db with
        | error e1 =>
          rw [hd] at hlm
          simp [bind, Except.bind] at hlm
        | ok d =>
          rw [hd] at hlm
          simp only [bind, Except.bind] at hlm
          injection hlm with h
          exact ⟨d, rfl, h.symm⟩
      obtain ⟨d, hd, hfxl⟩ := hshape
      cases hrcp : message_recipients db msg with
      | error e1 =>
        have htr : (do_send_message db msg false t).1 = logFx := by
          unfold do_send_message
          rw [if_pos (by simp), hlm, hrcp]
        rw [htr, hfxl] at he
        simp at he
        subst he
        simp [Effect.isPersistEffect] at hpe
      | ok recipients =>
        have hhead : ((do_send_message db msg false t).1).head?
            = some (.logEvent d) := by
          unfold do_send_message
          rw [if_pos (by simp), hlm, hrcp, hfxl]
          cases t <;> rfl
        exact ⟨d, hhead, hd⟩
  · intro hts d
    have hlm : log_message db msg = .ok [] := by
      unfold log_message
      rw [if_neg (by simp [hts])]
    cases hrcp : message_recipients db msg with
    | error e1 =>
      have htr : (do_send_message db msg false t).1 = [] := by
        unfold do_send_message
        rw [if_pos (by simp), hlm, hrcp]
      rw [htr]
      simp
    | ok recipients =>
      have htr : (do_send_message db msg false t).1
          = [] ++ [Effect.saveMessage msg] ++
            ((recipients.filter (fun p => p.user.is_active)).map
              (fun p => Effect.saveUserMessage p.id msg.id)) ++
            (if t then
              [Effect.postNotify msg.id
                (recipients.map (fun p => toString p.id))]
             else []) := by
        unfold do_send_message
        rw [if_pos (by simp), hlm, hrcp]
        cases t <;> simp
      rw [htr]
      cases t <;> simp

/-- Claim C8: a message whose recipient type is none of Personal, Stream
or Huddle makes `do_send_message` fail (with the bad-recipient-type
`ValueError`, or with the `KeyError` that `type_name` raises first when
the audit log is written) before any `Message` or `UserMessage` row is
persisted; for the three valid types neither of those errors can occur. -/
theorem invalid_recipient_type_fatal (db : DB) (msg : Message) (nl t : Bool) :
    ((msg.recipient.type ≠ Recipient.PERSONAL ∧
      msg.recipient.type ≠ Recipient.STREAM ∧
      msg.recipient.type ≠ Recipient.HUDDLE) →
      (∃ e, (do_send_message db msg nl t).2 = some e) ∧
      ∀ fxe ∈ (do_send_message db msg nl t).1, fxe.isPersistEffect = false) ∧
    ((msg.recipient.type = Recipient.PERSONAL ∨
      msg.recipient.type = Recipient.STREAM ∨
      msg.recipient.type = Recipient.HUDDLE) →
      (do_send_message db msg nl t).2 ≠ some .valueError ∧
      (do_send_message db msg nl t).2 ≠ some .keyError) := by
  constructor
  · rintro ⟨h1, h2, h3⟩
    have hrcp : message_recipients db msg = .error .valueError := by
      unfold message_recipients
      rw [if_neg h1, if_neg ?hne]
      case hne =>
        rintro (h | h)
        · exact h2 h
        · exact h3 h
    cases hlog : (if ¬nl then log_message db msg else Except.ok []) with
    | error e0 =>
      have htr : do_send_message db msg nl t = ([], some e0) := by
        unfold do_send_message
        rw [hlog]
      rw [htr]
      exact ⟨⟨e0, rfl⟩, by simp⟩
    | ok logFx =>
      have htr : do_send_message db msg nl t = (logFx, some .valueError) := by
        unfold do_send_message
        rw [hlog, hrcp]
      rw [htr]
      refine ⟨⟨.valueError, rfl⟩, ?_⟩
      intro fxe hmem
      cases hnl : nl
      · rw [hnl, if_pos (by simp)] at hlog
        rcases log_message_ok_shape db msg logFx hlog with h | ⟨d, _, h⟩ <;>
          subst h
        · simp at hmem
        · simp at hmem
          subst hmem
          rfl
      · rw [hnl, if_neg (by simp)] at hlog
        injection hlog with h
        subst h
        simp at hmem
  · rintro hv
    cases hlog : (if ¬nl then log_message db msg else Except.ok []) with
    | error e0 =>
      have he0 : e0 = .doesNotExist := by
        cases hnl : nl
        · rw [hnl, if_pos (by simp)] at hlog
          exact log_message_error_valid db msg e0 hv hlog
        · rw [hnl, if_neg (by simp)] at hlog
          exact absurd hlog (by simp)
      have htr : do_send_message db msg nl t = ([], some e0) := by
        unfold do_send_message
        rw [hlog]
      rw [htr, he0]
      exact ⟨by simp, by simp⟩
    | ok logFx =>
      cases hrcp : message_recipients db msg with
      | error e1 =>
        have he1 : e1 = .doesNotExist :=
          message_recipients_error_valid db msg e1 hv hrcp
        have htr : do_send_message db msg nl t = (logFx, some e1) := by
          unfold do_send_message
          rw [hlog, hrcp]
        rw [htr, he1]
        exact ⟨by simp, by simp⟩
      | ok recipients =>
        have hsnd : (do_send_message db msg nl t).2 = none := by
          unfold do_send_message
          rw [hlog, hrcp]
          cases t <;> rfl
        rw [hsnd]
        exact ⟨by simp, by simp⟩

/-- Claim C10: the `users` field of the push-notification POST is the full
resolved recipient set computed before the active-account filter: it is
exactly the ids of all resolved recipients, every resolved user appears
in it (deactivated accounts included), while `UserMessage` rows are
written only for the active-account subset — so the push payload can be a
strict superset of the delivered set. -/
theorem push_payload_full_recipient_set (db : DB) (msg : Message) (nl : Bool)
    (recipients : List UserProfile)
    (hrcp : message_recipients db msg = .ok recipients)
    (hok : (do_send_message db msg nl true).2 = none) :
    ((do_send_message db msg nl true).1).getLast?
      = some (.postNotify msg.id (recipients.map (fun p => toString p.id))) ∧
    deliveredUserIds (do_send_message db msg nl true).1
      = (recipients.filter (fun p => p.user.is_active)).map (fun p => p.id) ∧
    ∀ p ∈ recipients, p.user.is_active = false →
      toString p.id ∈ recipients.map (fun q => toString q.id) := by
  have hpair : do_send_message db msg nl true
      = ((do_send_message db msg nl true).1, none) := by
    rw [← hok]
  obtain ⟨logFx, recipients2, hlog, hrcp2, hfx⟩ :=
    do_send_message_ok_shape db msg nl true _ hpair
  have hrec_eq : recipients2 = recipients := by
    have := hrcp.symm.trans hrcp2
    injection this with h
    exact h.symm
  subst hrec_eq
  have hlogD : deliveredUserIds logFx = [] := by
    cases hnl : nl
    · rw [hnl, if_pos (by simp)] at hlog
      rcases log_message_ok_shape db msg logFx hlog with h | ⟨d, _, h⟩ <;>
        subst h <;> rfl
    · rw [hnl, if_neg (by simp)] at hlog
      injection hlog with h
      subst h
      rfl
  refine ⟨?_, ?_, fun p hp _ => List.mem_map_of_mem _ hp⟩
  · rw [hfx, if_pos rfl]
    exact List.getLast?_concat _
  · rw [hfx, deliveredUserIds_append, deliveredUserIds_append,
      deliveredUserIds_append, hlogD, deliveredUserIds_saveUserMessages]
    simp [deliveredUserIds]

/-- Claim C5 (failing input): the first resolution of the
duplicate-containing member list `[1, 1]` does not succeed: `get_huddle`
de-duplicates the list for the hash only, then iterates the original list
when creating subscriptions, so the second
`Subscription.objects.create` for the same (user_profile, recipient) pair
violates the table's `unique_together` constraint and raises
`IntegrityError`. -/
theorem get_huddle_duplicate_list_integrity_error :
    get_huddle (fun s => s) exDB [1, 1] = .error .integrityError := by rfl

/-- Witness for C1: the fixture stream has three active subscribers, one
with a deactivated account; the send delivers to exactly the two active
accounts. -/
theorem stream_fanout_active_only_witness :
    deliveredUserIds (do_send_message exDB exStreamMessage false true).1
        = [1, 2] ∧
    (deliveredUserIds (do_send_message exDB exStreamMessage false true).1).length
        = 2 := by
  have h := stream_fanout_active_only exDB exStreamMessage false true
    (Or.inl rfl) rfl
  constructor
  · rw [h]
    rfl
  · rw [h]
    rfl

/-- Witness for C2: A's personal message to B yields two delivery rows;
A's personal message to A yields one. -/
theorem personal_fanout_dedup_witness :
    deliveredUserIds (do_send_message exDB exPersonalMessage false true).1
        = [2, 1] ∧
    deliveredUserIds (do_send_message exDB exSelfMessage false true).1
        = [1] := by
  have h1 := personal_fanout_dedup exDB exPersonalMessage exProfileB
    exProfileA false true rfl rfl rfl rfl rfl
  have h2 := personal_fanout_dedup exDB exSelfMessage exProfileA
    exProfileA false true rfl rfl rfl rfl rfl
  constructor
  · rw [h1.2.1]
    rfl
  · rw [h2.2.1]
    rfl

/-- Witness for C7: the fixture stream send from the `website` client logs
its audit record first; the same send from a `test:` client logs
nothing. -/
theorem audit_log_before_persistence_witness :
    ((do_send_message exDB exStreamMessage false true).1).head?
        = some (.logEvent exStreamLogDict) ∧
    Effect.logEvent exStreamLogDict
        ∉ (do_send_message exDB exTestClientMessage false true).1 := by
  have h := (audit_log_before_persistence exDB exStreamMessage true).1 rfl
    (.saveMessage exStreamMessage) (by decide) rfl
  obtain ⟨d, hh, hd⟩ := h
  have hde : d = exStreamLogDict := by
    have h2 : Message.to_log_dict exStreamMessage exDB
        = .ok exStreamLogDict := rfl
    have h3 := hd.symm.trans h2
    injection h3
  refine ⟨?_, (audit_log_before_persistence exDB exTestClientMessage true).2
    rfl exStreamLogDict⟩
  rw [← hde]
  exact hh

/-- Witness for C8: sending to the type-7 recipient fails and persists
nothing. -/
theorem invalid_recipient_type_fatal_witness :
    (do_send_message exDB exBadTypeMessage false true).2 ≠ none ∧
    (Effect.saveMessage exBadTypeMessage).isPersistEffect = true ∧
    Effect.saveMessage exBadTypeMessage
        ∉ (do_send_message exDB exBadTypeMessage false true).1 := by
  have h := (invalid_recipient_type_fatal exDB exBadTypeMessage false true).1
    ⟨by decide, by decide, by decide⟩
  refine ⟨?_, rfl, ?_⟩
  · obtain ⟨e, he⟩ := h.1
    rw [he]
    simp
  · intro hmem
    have h2 := h.2 _ hmem
    simp [Effect.isPersistEffect] at h2

/-- Witness for C10: the fixture stream send POSTs all three subscriber
ids — including deactivated user 3 — while only users 1 and 2 receive a
delivery marker. -/
theorem push_payload_full_recipient_set_witness :
    ((do_send_message exDB exStreamMessage false true).1).getLast?
        = some (.postNotify 1000 ["1", "2", "3"]) ∧
    deliveredUserIds (do_send_message exDB exStreamMessage false true).1
        = [1, 2] ∧
    exUserC.is_active = false := by
  have h := push_payload_full_recipient_set exDB exStreamMessage false
    [exProfileA, exProfileB, exProfileC] rfl rfl
  refine ⟨?_, ?_, rfl⟩
  · rw [h.1]
    rfl
  · rw [h.2.1]
    rfl

end Zephyr
